import Mathlib

/-!
Shallow embedding of `src/server.py` (Sacandaga Calendar Backend): a Flask
CRUD service over a SQLite `events` table.  The SQLite table is modelled as a
list of `Event` records; each Flask handler becomes a pure function from its
parsed inputs and the current store to a response together with the new store.
Field and function names follow the Python source.
-/

namespace Server

/-- A row of the `events` table (columns in the order of the CREATE TABLE
statement in `init_db`).  `description` is the single nullable column. -/
structure Event where
  id : String
  title : String
  background_color : String
  start : String
  «end» : String
  description : Option String
deriving Repr, DecidableEq

/-- The persistent store: the rows of the `events` table. -/
abbrev Store := List Event

/-- JSON payload of a response body, as produced by `jsonify`. -/
inductive RespData where
  | event : Event → RespData
  | events : List Event → RespData
  | msg : String → RespData
  | error : String → RespData
  | null : RespData
deriving Repr, DecidableEq

/-- An HTTP response: status code plus JSON body. -/
structure Resp where
  status : Nat
  body : RespData
deriving Repr, DecidableEq

/-- `success_response(data, status_code)` from the source. -/
def success_response (data : RespData) (status_code : Nat) : Resp :=
  ⟨status_code, data⟩

/-- `error_response(message, status_code)` from the source: the client
receives `{"error": message}` with the given status. -/
def error_response (message : String) (status_code : Nat) : Resp :=
  ⟨status_code, RespData.error message⟩

/-- The default `message` argument of `error_response` in the source. -/
def genericErrorMessage : String := "An internal server error occurred"

/-- Process configuration read from the environment at startup: `IS_PROD`
(derived from `APP_ENV`) and `BEARER_TOKEN` (absent when the variable is
unset). -/
structure Config where
  is_prod : Bool
  bearer_token : Option String
deriving Repr, DecidableEq

/-- Python's `str.split()` with no argument: split on runs of whitespace,
discarding empty pieces.  Implemented by structural recursion on the
character list; `cur` accumulates the current word reversed. -/
def pySplitAux : List Char → List Char → List String
  | [], cur => if cur.isEmpty then [] else [String.mk cur.reverse]
  | c :: cs, cur =>
    if c.isWhitespace then
      if cur.isEmpty then pySplitAux cs [] else String.mk cur.reverse :: pySplitAux cs []
    else pySplitAux cs (c :: cur)

/-- `auth_header.split()` as used in `validate_bearer_token`. -/
def pySplit (s : String) : List String := pySplitAux s.toList []

/-- Python's `str.lower()` on one character, restricted to ASCII (the only
case arising in `Bearer` scheme/token comparisons). -/
def pyLowerChar (c : Char) : Char :=
  if 'A' ≤ c ∧ c ≤ 'Z' then Char.ofNat (c.toNat + 32) else c

/-- Python's `str.lower()`, restricted to ASCII case mapping. -/
def pyLower (s : String) : String := String.mk (s.toList.map pyLowerChar)

/-- The body of the `validate_bearer_token` decorator, factored as the pure
auth decision: `none` means the request passes through to the wrapped
handler, `some r` means it is rejected with response `r`.  Mirrors the
source line by line: development mode bypass, unset/empty `BEARER_TOKEN`
bypass, missing header, two-part `bearer` format check (scheme compared
lowercased), and the token comparison — the source lowercases the presented
token (`parts[1].lower()`) before comparing it with `BEARER_TOKEN`. -/
def bearer_auth_check (cfg : Config) (authHeader : Option String) : Option Resp :=
  if cfg.is_prod = false then none
  else
    match cfg.bearer_token with
    | none => none
    | some tok =>
      if tok = "" then none
      else
        match authHeader with
        | none => some (error_response "Authorization header missing" 401)
        | some h =>
          if h = "" then some (error_response "Authorization header missing" 401)
          else
            if (pySplit h).length ≠ 2 ∨ pyLower ((pySplit h).getD 0 "") ≠ "bearer" then
              some (error_response "Invalid authorization header format" 401)
            else if pyLower ((pySplit h).getD 1 "") ≠ tok then
              some (error_response "Invalid bearer token" 401)
            else none

/-- The `validate_bearer_token` decorator: wraps a handler, returning the
401 response (with the store untouched) when the check rejects, and the
handler's result otherwise. -/
def validate_bearer_token (cfg : Config) (authHeader : Option String)
    (f : Store → Resp × Store) : Store → Resp × Store :=
  fun db =>
    match bearer_auth_check cfg authHeader with
    | some r => (r, db)
    | none => f db

/-- Whether the auth gate is active: production mode with a non-empty
`BEARER_TOKEN` configured (the source treats an unset or empty token as
"auth disabled"). -/
def authGatingEnabled (cfg : Config) : Bool :=
  cfg.is_prod && (match cfg.bearer_token with
    | none => false
    | some t => t != "")

/-- The credential a request presents, when its `Authorization` header has
the accepted shape: exactly two whitespace-separated parts whose first part
lowercases to `"bearer"`.  `none` for a missing/empty header or any other
shape. -/
def presentedToken (authHeader : Option String) : Option String :=
  match authHeader with
  | none => none
  | some h =>
    if h = "" then none
    else
      if (pySplit h).length = 2 ∧ pyLower ((pySplit h).getD 0 "") = "bearer" then
        some ((pySplit h).getD 1 "")
      else none

/-- The parsed JSON body of a create request, restricted to string-valued
fields.  Each recognised key is `none` when absent, `some none` when present
with JSON null, `some (some s)` when present with string `s`;
`hasOtherKeys` records whether the object carries any unrecognised key
(which makes the Python dict truthy). -/
structure CreateBody where
  title : Option (Option String)
  background_color : Option (Option String)
  start : Option (Option String)
  «end» : Option (Option String)
  description : Option (Option String)
  hasOtherKeys : Bool
deriving Repr, DecidableEq

/-- Truthiness of the create body's dict: empty iff no key at all. -/
def createIsEmpty (d : CreateBody) : Bool :=
  d.title.isNone && d.background_color.isNone && d.start.isNone &&
    d.«end».isNone && d.description.isNone && !d.hasOtherKeys

/-- The source's required-field test `field in data and data[field]` for one
field: present, non-null and non-empty. -/
def fieldOk : Option (Option String) → Bool
  | some (some s) => s != ""
  | _ => false

/-- The value `data[field]` read after validation succeeded. -/
def fieldVal (f : Option (Option String)) : String := f.join.getD ""

/-- `create_event` handler (`POST /event`, body of the try block).  `new_id`
is the freshly generated `uuid4` string; `dbFail` injects an unexpected
storage-layer failure (the exception text) occurring once the handler
touches the database, which the source's `except` clause turns into
`error_response(f"Error creating event: {e}", log_error=e)` — a 500 whose
client-visible message embeds the exception detail.  `body` is `none` when
the request body is missing or unparseable. -/
def create_event (new_id : String) (dbFail : Option String)
    (body : Option CreateBody) (db : Store) : Resp × Store :=
  match body with
  | none => (error_response "Invalid JSON body payload" 400, db)
  | some data =>
    if createIsEmpty data then (error_response "Invalid JSON body payload" 400, db)
    else if fieldOk data.title = false then
      (error_response "Missing or empty required field: title" 400, db)
    else if fieldOk data.background_color = false then
      (error_response "Missing or empty required field: background_color" 400, db)
    else if fieldOk data.start = false then
      (error_response "Missing or empty required field: start" 400, db)
    else if fieldOk data.«end» = false then
      (error_response "Missing or empty required field: end" 400, db)
    else
      match dbFail with
      | some d => (error_response ("Error creating event: " ++ d) 500, db)
      | none =>
        let new_event : Event :=
          { id := new_id
            title := fieldVal data.title
            background_color := fieldVal data.background_color
            start := fieldVal data.start
            «end» := fieldVal data.«end»
            description := data.description.join }
        if db.any (fun e => e.id == new_id) then
          (error_response "Error creating event: UNIQUE constraint failed: events.id" 500, db)
        else
          (success_response (RespData.event new_event) 201, db ++ [new_event])

/-- The parsed JSON body of a PATCH request.  For the four NOT NULL columns
only string values are modelled (`none` = key absent); `description` may be
present with null (`some none`), which the source stores as NULL. -/
structure PatchBody where
  title : Option String
  background_color : Option String
  start : Option String
  «end» : Option String
  description : Option (Option String)
  hasOtherKeys : Bool
deriving Repr, DecidableEq

/-- Truthiness of the patch body's dict: empty iff no key at all. -/
def patchIsEmpty (d : PatchBody) : Bool :=
  d.title.isNone && d.background_color.isNone && d.start.isNone &&
    d.«end».isNone && d.description.isNone && !d.hasOtherKeys

/-- Whether none of the five recognised columns is present — the source's
`if not update_fields` case. -/
def patchNoRecognized (d : PatchBody) : Bool :=
  d.title.isNone && d.background_color.isNone && d.start.isNone &&
    d.«end».isNone && d.description.isNone

/-- Effect of the dynamically built `UPDATE … SET` statement on one row:
each column present in the body is overwritten (description possibly with
NULL), absent columns keep their stored value. -/
def applyPatch (data : PatchBody) (e : Event) : Event :=
  { e with
    title := data.title.getD e.title
    background_color := data.background_color.getD e.background_color
    start := data.start.getD e.start
    «end» := data.«end».getD e.«end»
    description := match data.description with
      | none => e.description
      | some d => d }

/-- `update_event` handler (`PATCH /event/<event_id>`, body of the try
block): body truthiness check, existence check, recognised-field check,
SQL UPDATE of every row matching the id, then re-fetch of the row. -/
def update_event (event_id : String) (body : Option PatchBody)
    (db : Store) : Resp × Store :=
  match body with
  | none => (error_response "Invalid JSON body payload" 400, db)
  | some data =>
    if patchIsEmpty data then (error_response "Invalid JSON body payload" 400, db)
    else
      match db.find? (fun e => e.id == event_id) with
      | none => (error_response ("Event with ID " ++ event_id ++ " not found") 404, db)
      | some _ =>
        if patchNoRecognized data then
          (error_response "No fields to update provided" 400, db)
        else
          let db2 := db.map (fun e => if e.id == event_id then applyPatch data e else e)
          match db2.find? (fun e => e.id == event_id) with
          | none => (success_response RespData.null 200, db2)
          | some upd => (success_response (RespData.event upd) 200, db2)

/-- `delete_event` handler (`DELETE /event/<event_id>`, body of the try
block): existence check then SQL DELETE of every row matching the id. -/
def delete_event (event_id : String) (db : Store) : Resp × Store :=
  match db.find? (fun e => e.id == event_id) with
  | none => (error_response ("Event with ID " ++ event_id ++ " not found") 404, db)
  | some _ =>
    (success_response (RespData.msg "Event deleted successfully") 200,
     db.filter (fun e => e.id != event_id))

/-- `get_event_by_id` handler (`GET /event/<event_id>`): read-only. -/
def get_event_by_id (event_id : String) (db : Store) : Resp :=
  match db.find? (fun e => e.id == event_id) with
  | none => error_response ("Event with ID " ++ event_id ++ " not found") 404
  | some e => success_response (RespData.event e) 200

/-- `get_all_events` handler (`GET /event`): read-only. -/
def get_all_events (db : Store) : Resp :=
  success_response (RespData.events db) 200

/-- `root` handler (`GET /`). -/
def root : Resp :=
  success_response (RespData.msg "Welcome to the Sacandaga Calendar Backend API!") 200

/-- The undecorated `login` handler body. -/
def login_handler : Store → Resp × Store :=
  fun db => (success_response (RespData.msg "Bearer auth token is valid!") 200, db)

/-- The `/login` route: `login` wrapped by `validate_bearer_token`. -/
def login (cfg : Config) (authHeader : Option String) : Store → Resp × Store :=
  validate_bearer_token cfg authHeader login_handler

/-- The `POST /event` route: `create_event` wrapped by
`validate_bearer_token`. -/
def create_event_route (cfg : Config) (authHeader : Option String)
    (new_id : String) (dbFail : Option String) (body : Option CreateBody) :
    Store → Resp × Store :=
  validate_bearer_token cfg authHeader (create_event new_id dbFail body)

/-- The `PATCH /event/<event_id>` route: `update_event` wrapped by
`validate_bearer_token`. -/
def update_event_route (cfg : Config) (authHeader : Option String)
    (event_id : String) (body : Option PatchBody) : Store → Resp × Store :=
  validate_bearer_token cfg authHeader (update_event event_id body)

/-- The `DELETE /event/<event_id>` route: `delete_event` wrapped by
`validate_bearer_token`. -/
def delete_event_route (cfg : Config) (authHeader : Option String)
    (event_id : String) : Store → Resp × Store :=
  validate_bearer_token cfg authHeader (delete_event event_id)

/-- The seed rows inserted by `init_db` on an empty table, with the four
generated uuid strings abstracted as parameters. -/
def initial_events (i1 i2 i3 i4 : String) : List Event :=
  [ ⟨i1, "Opening Weekend", "#2365A1", "2025-07-04", "2025-07-06",
      some "Elaine, Rick, Mark, Danee"⟩,
    ⟨i2, "Michael & Katie", "#388E3C", "2025-07-25", "2025-08-10", none⟩,
    ⟨i3, "Scott, Doug, Mark, Elaine, Rick", "#7B1FA2", "2025-08-16", "2025-08-23", none⟩,
    ⟨i4, "Chris & Friends", "#A0522D", "2025-08-28", "2025-09-02", none⟩ ]

/-- `init_db`: the table is created if missing (the empty store), and the
seed rows are inserted only when `SELECT COUNT(*)` returns 0. -/
def init_db (i1 i2 i3 i4 : String) (db : Store) : Store :=
  if db.length > 0 then db else db ++ initial_events i1 i2 i3 i4

/-- One `@app.route` registration: path pattern, HTTP method, and whether
the handler is wrapped by `validate_bearer_token`. -/
structure Route where
  path : String
  method : String
  gated : Bool
deriving Repr, DecidableEq

/-- Every route registration in the source, in order of appearance. -/
def routes : List Route :=
  [ ⟨"/", "GET", false⟩,
    ⟨"/login", "POST", true⟩,
    ⟨"/event", "GET", false⟩,
    ⟨"/event/<string:event_id>", "GET", false⟩,
    ⟨"/event", "POST", true⟩,
    ⟨"/event/<string:event_id>", "PATCH", true⟩,
    ⟨"/event/<string:event_id>", "DELETE", true⟩ ]

/-- `root` with an unexpected failure injected into its try block: the
except clause returns the fixed message "Error in root route" with status
500 — the exception text never reaches the client. -/
def root_with_failure (exc : Option String) : Resp :=
  match exc with
  | some _ => error_response "Error in root route" 500
  | none => root

/-- The undecorated `login` body with an unexpected failure injected: its
except clause passes the detail only to `log_error`, so the client message
is the `error_response` default `genericErrorMessage`, status 500. -/
def login_handler_with_failure (exc : Option String) : Store → Resp × Store :=
  fun db =>
    match exc with
    | some _ => (error_response genericErrorMessage 500, db)
    | none => login_handler db

/-- `get_all_events` with a storage failure injected at the database
access: the except clause returns the fixed message
"Error fetching all events", status 500. -/
def get_all_events_with_failure (dbFail : Option String) (db : Store) : Resp :=
  match dbFail with
  | some _ => error_response "Error fetching all events" 500
  | none => get_all_events db

/-- `get_event_by_id` with a storage failure injected at the database
access (the handler's first statement): the except clause embeds the
exception text in the client message
`f"Error fetching event by ID {event_id}: {e}"`, status 500. -/
def get_event_by_id_with_failure (event_id : String) (dbFail : Option String)
    (db : Store) : Resp :=
  match dbFail with
  | some d => error_response ("Error fetching event by ID " ++ event_id ++ ": " ++ d) 500
  | none => get_event_by_id event_id db

/-- `update_event` with a storage failure injected at `get_db_connection()`,
which the handler reaches only after the body-truthiness checks: the except
clause embeds the exception text in
`f"Error updating event {event_id}: {e}"`, status 500.  With no failure it
is exactly `update_event`. -/
def update_event_with_failure (event_id : String) (dbFail : Option String)
    (body : Option PatchBody) (db : Store) : Resp × Store :=
  match body with
  | none => (error_response "Invalid JSON body payload" 400, db)
  | some data =>
    if patchIsEmpty data then (error_response "Invalid JSON body payload" 400, db)
    else
      match dbFail with
      | some d =>
        (error_response ("Error updating event " ++ event_id ++ ": " ++ d) 500, db)
      | none => update_event event_id (some data) db

/-- `delete_event` with a storage failure injected at the database access
(the handler's first statement): the except clause embeds the exception
text in `f"Error deleting event {event_id}: {e}"`, status 500. -/
def delete_event_with_failure (event_id : String) (dbFail : Option String)
    (db : Store) : Resp × Store :=
  match dbFail with
  | some d => (error_response ("Error deleting event " ++ event_id ++ ": " ++ d) 500, db)
  | none => delete_event event_id db

/-! ## Helper lemmas -/

/-- `patchIsEmpty` is `patchNoRecognized` plus the absence of other keys. -/
theorem patchIsEmpty_eq (d : PatchBody) :
    patchIsEmpty d = (patchNoRecognized d && !d.hasOtherKeys) := rfl

/-- When the gate is disabled the auth check always passes. -/
theorem bearer_check_disabled (cfg : Config) (hdr : Option String)
    (h : authGatingEnabled cfg = false) : bearer_auth_check cfg hdr = none := by
  unfold authGatingEnabled at h
  unfold bearer_auth_check
  cases hp : cfg.is_prod with
  | false => simp [hp]
  | true =>
    cases ht : cfg.bearer_token with
    | none => simp [hp, ht]
    | some t =>
      rw [hp, ht] at h
      simp at h
      simp [hp, ht, h]

/-- When the gate is enabled, a request whose header yields no presented
token, or whose presented token does not lowercase to the configured
secret, is rejected with a 401 error response. -/
theorem bearer_check_reject (cfg : Config) (hdr : Option String) (t : String)
    (hg : authGatingEnabled cfg = true) (ht : cfg.bearer_token = some t)
    (hr : presentedToken hdr = none ∨ ∃ s, presentedToken hdr = some s ∧ pyLower s ≠ t) :
    ∃ m, bearer_auth_check cfg hdr = some (error_response m 401) := by
  unfold authGatingEnabled at hg
  rw [ht] at hg
  simp only [Bool.and_eq_true, bne_iff_ne, ne_eq] at hg
  obtain ⟨hp, htne⟩ := hg
  cases hdr with
  | none =>
    refine ⟨"Authorization header missing", ?_⟩
    simp only [bearer_auth_check, hp, ht]
    rw [if_neg (by simp), if_neg htne]
  | some h =>
    by_cases hh : h = ""
    · refine ⟨"Authorization header missing", ?_⟩
      simp only [bearer_auth_check, hp, ht]
      rw [if_neg (by simp), if_neg htne, if_pos hh]
    · by_cases hc : (pySplit h).length = 2 ∧ pyLower ((pySplit h).getD 0 "") = "bearer"
      · have hpt : presentedToken (some h) = some ((pySplit h).getD 1 "") := by
          simp only [presentedToken]
          rw [if_neg hh, if_pos hc]
        rcases hr with hr | ⟨s, hs, hlow⟩
        · rw [hpt] at hr; cases hr
        · rw [hpt] at hs
          have hseq : (pySplit h).getD 1 "" = s := by
            injection hs
          refine ⟨"Invalid bearer token", ?_⟩
          simp only [bearer_auth_check, hp, ht]
          rw [if_neg (by simp), if_neg htne, if_neg hh]
          rw [if_neg (fun hor => Or.elim hor (fun h1 => h1 hc.1) (fun h2 => h2 hc.2))]
          rw [if_pos (by rw [hseq]; exact hlow)]
      · refine ⟨"Invalid authorization header format", ?_⟩
        rw [Decidable.not_and_iff_or_not] at hc
        simp only [bearer_auth_check, hp, ht]
        rw [if_neg (by simp), if_neg htne, if_neg hh, if_pos hc]

/-- When the gate is enabled, a request whose presented token lowercases to
the configured secret passes the auth check. -/
theorem bearer_check_accept (cfg : Config) (hdr : Option String) (t s : String)
    (hg : authGatingEnabled cfg = true) (ht : cfg.bearer_token = some t)
    (hs : presentedToken hdr = some s) (hl : pyLower s = t) :
    bearer_auth_check cfg hdr = none := by
  unfold authGatingEnabled at hg
  rw [ht] at hg
  simp only [Bool.and_eq_true, bne_iff_ne, ne_eq] at hg
  obtain ⟨hp, htne⟩ := hg
  cases hdr with
  | none => simp [presentedToken] at hs
  | some h =>
    by_cases hh : h = ""
    · simp [presentedToken, hh] at hs
    · by_cases hc : (pySplit h).length = 2 ∧ pyLower ((pySplit h).getD 0 "") = "bearer"
      · have hpt : presentedToken (some h) = some ((pySplit h).getD 1 "") := by
          simp only [presentedToken]
          rw [if_neg hh, if_pos hc]
        rw [hpt] at hs
        have hseq : (pySplit h).getD 1 "" = s := by injection hs
        simp only [bearer_auth_check, hp, ht]
        rw [if_neg (by simp), if_neg htne, if_neg hh]
        rw [if_neg (fun hor => Or.elim hor (fun h1 => h1 hc.1) (fun h2 => h2 hc.2))]
        rw [if_neg (fun hcon => hcon (by rw [hseq]; exact hl))]
      · exfalso
        have hnone : presentedToken (some h) = none := by
          simp only [presentedToken]
          rw [if_neg hh, if_neg hc]
        rw [hnone] at hs
        cases hs

/-- The decorator passes through to the handler when the check passes. -/
theorem validate_pass (cfg : Config) (hdr : Option String)
    (f : Store → Resp × Store) (db : Store)
    (h : bearer_auth_check cfg hdr = none) :
    validate_bearer_token cfg hdr f db = f db := by
  unfold validate_bearer_token
  rw [h]

/-- The decorator returns the rejection with the store untouched when the
check rejects. -/
theorem validate_reject (cfg : Config) (hdr : Option String)
    (f : Store → Resp × Store) (db : Store) (r : Resp)
    (h : bearer_auth_check cfg hdr = some r) :
    validate_bearer_token cfg hdr f db = (r, db) := by
  unfold validate_bearer_token
  rw [h]

/-- Updating in place every row whose id matches and re-fetching by the same
id yields the image of the previously fetched row. -/
theorem find?_map_keyed (eid : String) (g : Event → Event)
    (hg : ∀ x, (g x).id = x.id) :
    ∀ (db : List Event) (e : Event),
      db.find? (fun x => x.id == eid) = some e →
      (db.map (fun x => if x.id == eid then g x else x)).find? (fun x => x.id == eid)
        = some (g e) := by
  intro db
  induction db with
  | nil => intro e h; simp at h
  | cons a tl ih =>
    intro e h
    by_cases ha : a.id = eid
    · have hpa : (a.id == eid) = true := beq_iff_eq.mpr ha
      rw [List.find?_cons_of_pos (p := fun x : Event => x.id == eid) _ hpa] at h
      injection h with h
      subst h
      simp only [List.map_cons]
      rw [if_pos hpa]
      exact List.find?_cons_of_pos (p := fun x : Event => x.id == eid) _
        (by show ((g a).id == eid) = true; rw [hg a]; exact hpa)
    · have hpa : (a.id == eid) = false := by simp [ha]
      rw [List.find?_cons_of_neg (p := fun x : Event => x.id == eid) _ (by simp [hpa])] at h
      simp only [List.map_cons]
      rw [if_neg (by simp [hpa])]
      rw [List.find?_cons_of_neg (p := fun x : Event => x.id == eid) _ (by simp [hpa])]
      exact ih e h

/-- Fetching a freshly appended row whose id matches none of the existing
rows finds exactly that row. -/
theorem find?_append_fresh (eid : String) (ev : Event) (hev : ev.id = eid) :
    ∀ db : List Event, (∀ e ∈ db, e.id ≠ eid) →
      (db ++ [ev]).find? (fun x => x.id == eid) = some ev := by
  intro db
  induction db with
  | nil =>
    intro _
    simp only [List.nil_append]
    exact List.find?_cons_of_pos (p := fun x : Event => x.id == eid) _ (beq_iff_eq.mpr hev)
  | cons a tl ih =>
    intro hfr
    have ha : a.id ≠ eid := hfr a (List.mem_cons_self a tl)
    simp only [List.cons_append]
    rw [List.find?_cons_of_neg (p := fun x : Event => x.id == eid) _ (by simp [ha])]
    exact ih (fun e he => hfr e (List.mem_cons_of_mem a he))

/-- After filtering out every row with the given id, fetching that id finds
nothing. -/
theorem find?_filter_ne (eid : String) :
    ∀ db : List Event,
      (db.filter (fun x => x.id != eid)).find? (fun x => x.id == eid) = none := by
  intro db
  induction db with
  | nil => rfl
  | cons a tl ih =>
    by_cases ha : a.id = eid
    · rw [List.filter_cons_of_neg (by simp [ha])]
      exact ih
    · rw [List.filter_cons_of_pos (by simp [ha])]
      rw [List.find?_cons_of_neg (p := fun x : Event => x.id == eid) _ (by simp [ha])]
      exact ih

/-! ## Claim theorems -/

/-- C9: In the PATCH handler the checks are ordered body-validity, then
existence, then field recognition: a missing/unparseable body (`none`) or an
empty JSON object yields 400 for every id; a parseable non-empty body
against an absent id yields 404 even when no recognised field is supplied;
and the no-fields-to-update 400 arises for a parseable non-empty body with
no recognised field against an existing id. -/
theorem C9_update_check_order :
    (∀ (db : Store) (eid : String),
        update_event eid none db = (error_response "Invalid JSON body payload" 400, db))
  ∧ (∀ (db : Store) (eid : String) (data : PatchBody), patchIsEmpty data = true →
        update_event eid (some data) db = (error_response "Invalid JSON body payload" 400, db))
  ∧ (∀ (db : Store) (eid : String) (data : PatchBody), patchIsEmpty data = false →
        db.find? (fun x => x.id == eid) = none →
        update_event eid (some data) db
          = (error_response ("Event with ID " ++ eid ++ " not found") 404, db))
  ∧ (∀ (db : Store) (eid : String) (data : PatchBody) (e : Event),
        patchNoRecognized data = true → data.hasOtherKeys = true →
        db.find? (fun x => x.id == eid) = some e →
        update_event eid (some data) db
          = (error_response "No fields to update provided" 400, db)) := by
  refine ⟨fun db eid => rfl, ?_, ?_, ?_⟩
  · intro db eid data h
    simp only [update_event]
    rw [if_pos h]
  · intro db eid data h hfind
    simp only [update_event]
    rw [if_neg (by simp [h])]
    simp only [hfind]
  · intro db eid data e hnr hok hfind
    have hemp : patchIsEmpty data = false := by
      rw [patchIsEmpty_eq, hok]
      simp
    simp only [update_event]
    rw [if_neg (by simp [hemp])]
    simp only [hfind]
    rw [if_pos hnr]

/-- C2: A PATCH carrying only `title` keeps `background_color`, `start`,
`end`, `description` of the stored row; in general the update overwrites
exactly the supplied fields, leaves absent fields untouched, clears
`description` when it is supplied as null, returns the post-update record,
and yields 404 when the id is absent. -/
theorem C2_partial_update_isolation :
    (∀ (db : Store) (eid t : String) (hk : Bool) (e : Event),
        db.find? (fun x => x.id == eid) = some e →
        update_event eid (some ⟨some t, none, none, none, none, hk⟩) db
          = (success_response (RespData.event { e with title := t }) 200,
             db.map (fun x => if x.id == eid then { x with title := t } else x)))
  ∧ (∀ (db : Store) (eid : String) (data : PatchBody) (e : Event),
        db.find? (fun x => x.id == eid) = some e →
        patchNoRecognized data = false →
        update_event eid (some data) db
          = (success_response (RespData.event (applyPatch data e)) 200,
             db.map (fun x => if x.id == eid then applyPatch data x else x)))
  ∧ (∀ (data : PatchBody) (e : Event),
        (applyPatch data e).id = e.id
      ∧ (data.title = none → (applyPatch data e).title = e.title)
      ∧ (∀ v, data.title = some v → (applyPatch data e).title = v)
      ∧ (data.background_color = none →
            (applyPatch data e).background_color = e.background_color)
      ∧ (∀ v, data.background_color = some v → (applyPatch data e).background_color = v)
      ∧ (data.start = none → (applyPatch data e).start = e.start)
      ∧ (∀ v, data.start = some v → (applyPatch data e).start = v)
      ∧ (data.«end» = none → (applyPatch data e).«end» = e.«end»)
      ∧ (∀ v, data.«end» = some v → (applyPatch data e).«end» = v)
      ∧ (data.description = none → (applyPatch data e).description = e.description)
      ∧ (data.description = some none → (applyPatch data e).description = none)
      ∧ (∀ v, data.description = some (some v) → (applyPatch data e).description = some v))
  ∧ (∀ (db : Store) (eid : String) (data : PatchBody),
        patchIsEmpty data = false →
        db.find? (fun x => x.id == eid) = none →
        update_event eid (some data) db
          = (error_response ("Event with ID " ++ eid ++ " not found") 404, db)) := by
  refine ⟨?_, ?_, ?_, ?_⟩
  · intro db eid t hk e hfind
    simp only [update_event]
    rw [if_neg (by simp [patchIsEmpty])]
    simp only [hfind]
    rw [if_neg (by simp [patchNoRecognized])]
    have h2 := find?_map_keyed eid
      (applyPatch ⟨some t, none, none, none, none, hk⟩) (fun x => rfl) db e hfind
    simp only [h2]
    rfl
  · intro db eid data e hfind hnr
    have hemp : patchIsEmpty data = false := by
      rw [patchIsEmpty_eq, hnr]
      simp
    simp only [update_event]
    rw [if_neg (by simp [hemp])]
    simp only [hfind]
    rw [if_neg (by simp [hnr])]
    have h2 := find?_map_keyed eid (applyPatch data) (fun x => rfl) db e hfind
    simp only [h2]
  · intro data e
    refine ⟨rfl, ?_, ?_, ?_, ?_, ?_, ?_, ?_, ?_, ?_, ?_, ?_⟩ <;>
      first
        | (intro h; simp [applyPatch, h])
        | (intro v h; simp [applyPatch, h])
  · intro db eid data hne hfind
    simp only [update_event]
    rw [if_neg (by simp [hne])]
    simp only [hfind]

/-- C4: A create request with a missing/unparseable body, or with any of the
four required fields absent, null, or empty, is rejected with a 400
response and the store is unchanged. -/
theorem C4_create_validation :
    (∀ (db : Store) (nid : String) (dbFail : Option String),
        create_event nid dbFail none db = (error_response "Invalid JSON body payload" 400, db))
  ∧ (∀ (db : Store) (nid : String) (dbFail : Option String) (data : CreateBody),
        (fieldOk data.title = false ∨ fieldOk data.background_color = false
          ∨ fieldOk data.start = false ∨ fieldOk data.«end» = false) →
        (create_event nid dbFail (some data) db).1.status = 400
      ∧ (create_event nid dbFail (some data) db).2 = db) := by
  refine ⟨fun db nid dbFail => rfl, ?_⟩
  intro db nid dbFail data hbad
  by_cases h0 : createIsEmpty data = true
  · constructor <;> simp [create_event, h0, error_response]
  · cases h1 : fieldOk data.title with
    | false => constructor <;> simp [create_event, h0, h1, error_response]
    | true =>
      cases h2 : fieldOk data.background_color with
      | false => constructor <;> simp [create_event, h0, h1, h2, error_response]
      | true =>
        cases h3 : fieldOk data.start with
        | false => constructor <;> simp [create_event, h0, h1, h2, h3, error_response]
        | true =>
          cases h4 : fieldOk data.«end» with
          | false => constructor <;> simp [create_event, h0, h1, h2, h3, h4, error_response]
          | true => simp [h1, h2, h3, h4] at hbad

/-- C5 counterexample: after deleting the only event, a subsequent PATCH
request on the same id whose body is missing/unparseable receives 400
("Invalid JSON body payload"), not the 404 the claim asserts for every
subsequent partial update. -/
theorem C5_counterexample :
    (delete_event "id-1" [⟨"id-1", "Camp", "#fff", "2025-07-04", "2025-07-05", none⟩]).1.status
        = 200
  ∧ (update_event "id-1" none
        (delete_event "id-1" [⟨"id-1", "Camp", "#fff", "2025-07-04", "2025-07-05", none⟩]).2).1
      = error_response "Invalid JSON body payload" 400 := by
  constructor <;> rfl

/-- C5 (amended): after a successful delete, a subsequent get on the same id
returns 404, and a subsequent PATCH with a parseable non-empty body returns
404 (a missing/unparseable body still yields 400 per the handler's check
order); deleting an absent id returns 404 and leaves the store unchanged. -/
theorem C5_delete_then_get_amended :
    (∀ (db : Store) (eid : String) (e : Event),
        db.find? (fun x => x.id == eid) = some e →
        (delete_event eid db).1
            = success_response (RespData.msg "Event deleted successfully") 200
      ∧ get_event_by_id eid (delete_event eid db).2
            = error_response ("Event with ID " ++ eid ++ " not found") 404
      ∧ (∀ data : PatchBody, patchIsEmpty data = false →
            update_event eid (some data) (delete_event eid db).2
              = (error_response ("Event with ID " ++ eid ++ " not found") 404,
                 (delete_event eid db).2)))
  ∧ (∀ (db : Store) (eid : String),
        db.find? (fun x => x.id == eid) = none →
        delete_event eid db
          = (error_response ("Event with ID " ++ eid ++ " not found") 404, db)) := by
  constructor
  · intro db eid e hfind
    have hdel : delete_event eid db
        = (success_response (RespData.msg "Event deleted successfully") 200,
           db.filter (fun x => x.id != eid)) := by
      simp only [delete_event, hfind]
    refine ⟨by rw [hdel], ?_, ?_⟩
    · rw [hdel]
      simp only [get_event_by_id, find?_filter_ne]
    · intro data hne
      rw [hdel]
      simp only [update_event]
      rw [if_neg (by simp [hne])]
      simp only [find?_filter_ne]
  · intro db eid hfind
    simp only [delete_event, hfind]

/-- C6: Initialising against an empty store yields exactly four events, one
of them the "Opening Weekend" seed with the literal field values of the
source; initialising against a non-empty store leaves the count unchanged. -/
theorem C6_seed :
    (∀ i1 i2 i3 i4 : String,
        (init_db i1 i2 i3 i4 []).length = 4
      ∧ (init_db i1 i2 i3 i4 []).any (fun e =>
            e.title == "Opening Weekend" && e.start == "2025-07-04" &&
              e.«end» == "2025-07-06" && e.background_color == "#2365A1" &&
              e.description == some "Elaine, Rick, Mark, Danee") = true)
  ∧ (∀ (i1 i2 i3 i4 : String) (db : Store), db ≠ [] →
        (init_db i1 i2 i3 i4 db).length = db.length) := by
  constructor
  · intro i1 i2 i3 i4
    exact ⟨rfl, rfl⟩
  · intro i1 i2 i3 i4 db hne
    cases db with
    | nil => exact absurd rfl hne
    | cons a tl => simp [init_db]

/-- C3: Creating an event with all four required fields non-empty succeeds
with 201, appends the record, and fetching the returned id yields a record
equal to the creation input in every supplied field, with `description`
null when it was omitted. -/
theorem C3_create_get_roundtrip
    (db : Store) (nid t bc s en : String) (dOpt : Option (Option String)) (hk : Bool)
    (ht : t ≠ "") (hbc : bc ≠ "") (hs : s ≠ "") (hen : en ≠ "")
    (hfresh : ∀ e ∈ db, e.id ≠ nid) :
    create_event nid none
        (some ⟨some (some t), some (some bc), some (some s), some (some en), dOpt, hk⟩) db
      = (success_response (RespData.event ⟨nid, t, bc, s, en, dOpt.join⟩) 201,
         db ++ [⟨nid, t, bc, s, en, dOpt.join⟩])
  ∧ get_event_by_id nid (db ++ [⟨nid, t, bc, s, en, dOpt.join⟩])
      = success_response (RespData.event ⟨nid, t, bc, s, en, dOpt.join⟩) 200
  ∧ (dOpt = none → (⟨nid, t, bc, s, en, dOpt.join⟩ : Event).description = none) := by
  refine ⟨?_, ?_, ?_⟩
  · have hany : db.any (fun e => e.id == nid) = false := by
      rw [List.any_eq_false]
      intro e he
      simp [hfresh e he]
    simp only [create_event]
    rw [if_neg (by simp [createIsEmpty])]
    rw [if_neg (by simp [fieldOk, ht])]
    rw [if_neg (by simp [fieldOk, hbc])]
    rw [if_neg (by simp [fieldOk, hs])]
    rw [if_neg (by simp [fieldOk, hen])]
    rw [if_neg (by simp [hany])]
    rfl
  · simp only [get_event_by_id,
      find?_append_fresh nid ⟨nid, t, bc, s, en, dOpt.join⟩ rfl db hfresh]
  · intro h
    rw [h]
    rfl

/-- C7 counterexample: an unexpected storage failure in the create handler
(here, exception text "disk I/O error" after validation passed) produces a
500 whose client-visible message is "Error creating event: disk I/O error"
— embedding the internal failure detail rather than the generic message —
and persists nothing. -/
theorem C7_counterexample :
    (create_event "id-1" (some "disk I/O error")
        (some ⟨some (some "Camp"), some (some "#2365A1"), some (some "2025-07-04"),
              some (some "2025-07-06"), none, false⟩) []).1
      = error_response ("Error creating event: " ++ "disk I/O error") 500
  ∧ error_response ("Error creating event: " ++ "disk I/O error") 500
      ≠ error_response genericErrorMessage 500
  ∧ (create_event "id-1" (some "disk I/O error")
        (some ⟨some (some "Camp"), some (some "#2365A1"), some (some "2025-07-04"),
              some (some "2025-07-06"), none, false⟩) []).2 = [] := by
  refine ⟨rfl, by decide, rfl⟩

/-- C7 (amended): every handler catches an unexpected internal failure and
returns a 500 response; the create, get-by-id, update and delete handlers
embed the exception detail in the client-facing message (the source's
f-strings `Error creating event: {e}`, `Error fetching event by ID {id}:
{e}`, `Error updating event {id}: {e}`, `Error deleting event {id}: {e}`),
while the root, list-all and login handlers return a client message free of
the exception detail (a fixed string, or the generic default for login);
with no failure each variant coincides with the plain handler. -/
theorem C7_error_detail_amended :
    (∀ (db : Store) (nid d : String) (data : CreateBody),
        fieldOk data.title = true → fieldOk data.background_color = true →
        fieldOk data.start = true → fieldOk data.«end» = true →
        create_event nid (some d) (some data) db
          = (error_response ("Error creating event: " ++ d) 500, db))
  ∧ (∀ (db : Store) (eid d : String),
        get_event_by_id_with_failure eid (some d) db
          = error_response ("Error fetching event by ID " ++ eid ++ ": " ++ d) 500)
  ∧ (∀ (db : Store) (eid d : String) (data : PatchBody),
        patchIsEmpty data = false →
        update_event_with_failure eid (some d) (some data) db
          = (error_response ("Error updating event " ++ eid ++ ": " ++ d) 500, db))
  ∧ (∀ (db : Store) (eid d : String),
        delete_event_with_failure eid (some d) db
          = (error_response ("Error deleting event " ++ eid ++ ": " ++ d) 500, db))
  ∧ (∀ d : String, root_with_failure (some d) = error_response "Error in root route" 500)
  ∧ (∀ (db : Store) (d : String),
        get_all_events_with_failure (some d) db
          = error_response "Error fetching all events" 500)
  ∧ (∀ (db : Store) (d : String),
        login_handler_with_failure (some d) db
          = (error_response genericErrorMessage 500, db))
  ∧ (∀ (db : Store) (eid : String) (body : Option PatchBody),
        update_event_with_failure eid none body db = update_event eid body db)
  ∧ (∀ (db : Store) (eid : String),
        delete_event_with_failure eid none db = delete_event eid db)
  ∧ (∀ (db : Store) (eid : String),
        get_event_by_id_with_failure eid none db = get_event_by_id eid db)
  ∧ (∀ db : Store, get_all_events_with_failure none db = get_all_events db)
  ∧ root_with_failure none = root
  ∧ (∀ db : Store, login_handler_with_failure none db = login_handler db) := by
  refine ⟨?_, fun db eid d => rfl, ?_, fun db eid d => rfl, fun d => rfl,
          fun db d => rfl, fun db d => rfl, ?_, fun db eid => rfl,
          fun db eid => rfl, fun db => rfl, rfl, fun db => rfl⟩
  · intro db nid d data h1 h2 h3 h4
    have h0 : createIsEmpty data = false := by
      unfold createIsEmpty
      cases hdt : data.title with
      | none => rw [hdt] at h1; simp [fieldOk] at h1
      | some v => simp [hdt]
    simp only [create_event]
    rw [if_neg (by simp [h0])]
    rw [if_neg (by simp [h1])]
    rw [if_neg (by simp [h2])]
    rw [if_neg (by simp [h3])]
    rw [if_neg (by simp [h4])]
  · intro db eid d data h
    simp only [update_event_with_failure]
    rw [if_neg (by simp [h])]
  · intro db eid body
    cases body with
    | none => rfl
    | some data =>
      by_cases h : patchIsEmpty data = true
      · simp only [update_event_with_failure, update_event, if_pos h]
      · simp only [update_event_with_failure]
        rw [if_neg h]

/-- C8 counterexample: no registered route exposes `/login` under HTTP
method GET; the `/login` route is registered with method POST (and is
auth-gated). -/
theorem C8_counterexample :
    routes.any (fun r => r.path == "/login" && r.method == "GET") = false
  ∧ routes.any (fun r => r.path == "/login" && r.method == "POST" && r.gated) = true := by
  constructor <;> rfl

/-- C8 (amended): the token-validation probe is exposed at `/login` with
HTTP method POST and is wrapped by the bearer check: 200 when gating is
disabled or the presented credential lowercases to the secret, 401 on the
auth failure modes. -/
theorem C8_login_route_amended :
    routes.any (fun r => r.path == "/login" && r.method == "POST" && r.gated) = true
  ∧ (∀ (cfg : Config) (hdr : Option String) (db : Store),
        authGatingEnabled cfg = false →
        login cfg hdr db
          = (success_response (RespData.msg "Bearer auth token is valid!") 200, db))
  ∧ (∀ (cfg : Config) (hdr : Option String) (db : Store) (t s : String),
        authGatingEnabled cfg = true → cfg.bearer_token = some t →
        presentedToken hdr = some s → pyLower s = t →
        login cfg hdr db
          = (success_response (RespData.msg "Bearer auth token is valid!") 200, db))
  ∧ (∀ (cfg : Config) (hdr : Option String) (db : Store) (t : String),
        authGatingEnabled cfg = true → cfg.bearer_token = some t →
        (presentedToken hdr = none ∨ ∃ s, presentedToken hdr = some s ∧ pyLower s ≠ t) →
        (login cfg hdr db).1.status = 401) := by
  refine ⟨rfl, ?_, ?_, ?_⟩
  · intro cfg hdr db hdis
    exact validate_pass _ _ _ _ (bearer_check_disabled cfg hdr hdis)
  · intro cfg hdr db t s hg ht hs hl
    exact validate_pass _ _ _ _ (bearer_check_accept cfg hdr t s hg ht hs hl)
  · intro cfg hdr db t hg ht hr
    obtain ⟨m, hm⟩ := bearer_check_reject cfg hdr t hg ht hr
    have hlg : login cfg hdr db = (error_response m 401, db) :=
      validate_reject _ _ _ _ _ hm
    rw [hlg]
    rfl

/-- C1 counterexample: with gating enabled and secret "Secret", the request
carrying the exact configured credential `Authorization: Bearer Secret` is
rejected with 401 (the handler lowercases the presented token before
comparing); and a header `bearer tok` — not of the exact form
`Bearer <token>` — passes the check and reaches the handler. -/
theorem C1_counterexample :
    (create_event_route ⟨true, some "Secret"⟩ (some "Bearer Secret") "id-1" none
        (some ⟨some (some "Camp"), some (some "#2365A1"), some (some "2025-07-04"),
              some (some "2025-07-06"), none, false⟩) []).1
      = error_response "Invalid bearer token" 401
  ∧ (login ⟨true, some "tok"⟩ (some "bearer tok") []).1
      = success_response (RespData.msg "Bearer auth token is valid!") 200 := by
  constructor <;> rfl

/-- C1 (amended): when gating is disabled every gated route runs its handler
unauthenticated; when gating is enabled, a request presenting no acceptable
two-part bearer header, or a token whose ASCII lowercasing differs from the
configured secret, receives 401 from every create/update/delete/probe route
with the store unchanged; and a request whose presented token lowercases to
the secret (the scheme word being compared case-insensitively) runs the
wrapped handler. -/
theorem C1_auth_gating_amended :
    (∀ (cfg : Config) (hdr : Option String) (db : Store) (nid eid : String)
        (dbFail : Option String) (cbody : Option CreateBody) (pbody : Option PatchBody),
        authGatingEnabled cfg = false →
          create_event_route cfg hdr nid dbFail cbody db = create_event nid dbFail cbody db
        ∧ update_event_route cfg hdr eid pbody db = update_event eid pbody db
        ∧ delete_event_route cfg hdr eid db = delete_event eid db
        ∧ login cfg hdr db = login_handler db)
  ∧ (∀ (cfg : Config) (hdr : Option String) (db : Store) (nid eid t : String)
        (dbFail : Option String) (cbody : Option CreateBody) (pbody : Option PatchBody),
        authGatingEnabled cfg = true → cfg.bearer_token = some t →
        (presentedToken hdr = none ∨ ∃ s, presentedToken hdr = some s ∧ pyLower s ≠ t) →
          (create_event_route cfg hdr nid dbFail cbody db).1.status = 401
        ∧ (create_event_route cfg hdr nid dbFail cbody db).2 = db
        ∧ (update_event_route cfg hdr eid pbody db).1.status = 401
        ∧ (update_event_route cfg hdr eid pbody db).2 = db
        ∧ (delete_event_route cfg hdr eid db).1.status = 401
        ∧ (delete_event_route cfg hdr eid db).2 = db
        ∧ (login cfg hdr db).1.status = 401
        ∧ (login cfg hdr db).2 = db)
  ∧ (∀ (cfg : Config) (hdr : Option String) (db : Store) (nid eid t s : String)
        (dbFail : Option String) (cbody : Option CreateBody) (pbody : Option PatchBody),
        authGatingEnabled cfg = true → cfg.bearer_token = some t →
        presentedToken hdr = some s → pyLower s = t →
          create_event_route cfg hdr nid dbFail cbody db = create_event nid dbFail cbody db
        ∧ update_event_route cfg hdr eid pbody db = update_event eid pbody db
        ∧ delete_event_route cfg hdr eid db = delete_event eid db
        ∧ login cfg hdr db = login_handler db) := by
  refine ⟨?_, ?_, ?_⟩
  · intro cfg hdr db nid eid dbFail cbody pbody hdis
    have h := bearer_check_disabled cfg hdr hdis
    exact ⟨validate_pass _ _ _ _ h, validate_pass _ _ _ _ h,
           validate_pass _ _ _ _ h, validate_pass _ _ _ _ h⟩
  · intro cfg hdr db nid eid t dbFail cbody pbody hg ht hr
    obtain ⟨m, hm⟩ := bearer_check_reject cfg hdr t hg ht hr
    have hc : create_event_route cfg hdr nid dbFail cbody db = (error_response m 401, db) :=
      validate_reject _ _ _ _ _ hm
    have hu : update_event_route cfg hdr eid pbody db = (error_response m 401, db) :=
      validate_reject _ _ _ _ _ hm
    have hd : delete_event_route cfg hdr eid db = (error_response m 401, db) :=
      validate_reject _ _ _ _ _ hm
    have hlg : login cfg hdr db = (error_response m 401, db) :=
      validate_reject _ _ _ _ _ hm
    exact ⟨by rw [hc]; rfl, by rw [hc], by rw [hu]; rfl, by rw [hu],
           by rw [hd]; rfl, by rw [hd], by rw [hlg]; rfl, by rw [hlg]⟩
  · intro cfg hdr db nid eid t s dbFail cbody pbody hg ht hs hl
    have h := bearer_check_accept cfg hdr t s hg ht hs hl
    exact ⟨validate_pass _ _ _ _ h, validate_pass _ _ _ _ h,
           validate_pass _ _ _ _ h, validate_pass _ _ _ _ h⟩

/-- C10: The root, list-all and get-by-id handlers are registered without
the bearer decorator — every GET route is ungated — and their responses
never carry status 401, independently of any configuration or header. -/
theorem C10_read_endpoints_ungated :
    root.status ≠ 401
  ∧ (∀ db : Store, (get_all_events db).status ≠ 401)
  ∧ (∀ (db : Store) (eid : String), (get_event_by_id eid db).status ≠ 401)
  ∧ (routes.filter (fun r => r.method == "GET")).all (fun r => r.gated == false) = true := by
  refine ⟨by decide, fun db => ?_, ?_, rfl⟩
  · show (200 : Nat) ≠ 401
    decide
  · intro db eid
    unfold get_event_by_id
    cases h : db.find? (fun x => x.id == eid) with
    | none =>
      show (404 : Nat) ≠ 401
      decide
    | some e =>
      show (200 : Nat) ≠ 401
      decide

/-! ## Witnesses -/

/-- Witness for C1 (amended): a missing header under an enabled gate is
rejected with the store unchanged; a credential lowercasing to the secret
passes through; a non-production configuration bypasses the gate. -/
theorem C1_auth_gating_amended_witness :
    (login ⟨true, some "tok"⟩ none []).1.status = 401
  ∧ (create_event_route ⟨true, some "tok"⟩ none "n" none none []).2 = ([] : Store)
  ∧ login ⟨true, some "tok"⟩ (some "Bearer TOK") [] = login_handler []
  ∧ login ⟨false, none⟩ none [] = login_handler [] := by
  refine ⟨?_, ?_, ?_, ?_⟩
  · exact (C1_auth_gating_amended.2.1 ⟨true, some "tok"⟩ none [] "n" "e" "tok"
      none none none (by decide) rfl (Or.inl rfl)).2.2.2.2.2.2.1
  · exact (C1_auth_gating_amended.2.1 ⟨true, some "tok"⟩ none [] "n" "e" "tok"
      none none none (by decide) rfl (Or.inl rfl)).2.1
  · exact (C1_auth_gating_amended.2.2 ⟨true, some "tok"⟩ (some "Bearer TOK") [] "n" "e"
      "tok" "TOK" none none none (by decide) rfl (by decide) (by decide)).2.2.2
  · exact (C1_auth_gating_amended.1 ⟨false, none⟩ none [] "n" "e"
      none none none (by decide)).2.2.2

/-- Witness for C2: updating only the title of the stored event changes the
title and nothing else, and returns the post-update record. -/
theorem C2_partial_update_isolation_witness :
    update_event "id-1" (some ⟨some "New", none, none, none, none, false⟩)
        [⟨"id-1", "Old", "#111", "2025-01-01", "2025-01-02", some "guests"⟩]
      = (success_response (RespData.event
            ⟨"id-1", "New", "#111", "2025-01-01", "2025-01-02", some "guests"⟩) 200,
         [⟨"id-1", "New", "#111", "2025-01-01", "2025-01-02", some "guests"⟩]) := by
  have h := C2_partial_update_isolation.1
    [⟨"id-1", "Old", "#111", "2025-01-01", "2025-01-02", some "guests"⟩]
    "id-1" "New" false ⟨"id-1", "Old", "#111", "2025-01-01", "2025-01-02", some "guests"⟩ rfl
  exact h.trans (by rfl)

/-- Witness for C3: a concrete create followed by a get of the returned id
round-trips, with description null when omitted. -/
theorem C3_create_get_roundtrip_witness :
    create_event "id-9" none
        (some ⟨some (some "Camp"), some (some "#abc"), some (some "2025-07-04"),
              some (some "2025-07-06"), none, false⟩) []
      = (success_response (RespData.event
            ⟨"id-9", "Camp", "#abc", "2025-07-04", "2025-07-06", none⟩) 201,
         [⟨"id-9", "Camp", "#abc", "2025-07-04", "2025-07-06", none⟩])
  ∧ get_event_by_id "id-9" [⟨"id-9", "Camp", "#abc", "2025-07-04", "2025-07-06", none⟩]
      = success_response (RespData.event
          ⟨"id-9", "Camp", "#abc", "2025-07-04", "2025-07-06", none⟩) 200 := by
  have h := C3_create_get_roundtrip [] "id-9" "Camp" "#abc" "2025-07-04" "2025-07-06"
    none false (by decide) (by decide) (by decide) (by decide)
    (fun e he => absurd he (List.not_mem_nil e))
  exact ⟨h.1.trans (by rfl), h.2.1.trans (by rfl)⟩

/-- Witness for C4: creating with an empty title is rejected with 400 and
persists nothing. -/
theorem C4_create_validation_witness :
    (create_event "id-1" none
        (some ⟨some (some ""), some (some "#abc"), some (some "2025-07-04"),
              some (some "2025-07-06"), none, false⟩) []).1.status = 400
  ∧ (create_event "id-1" none
        (some ⟨some (some ""), some (some "#abc"), some (some "2025-07-04"),
              some (some "2025-07-06"), none, false⟩) []).2 = [] := by
  exact C4_create_validation.2 [] "id-1" none
    ⟨some (some ""), some (some "#abc"), some (some "2025-07-04"),
     some (some "2025-07-06"), none, false⟩ (Or.inl (by decide))

/-- Witness for C5 (amended): get after a successful delete yields 404, and
deleting an absent id yields 404 with the store unchanged. -/
theorem C5_delete_then_get_amended_witness :
    get_event_by_id "id-1"
        (delete_event "id-1" [⟨"id-1", "Camp", "#fff", "2025-07-04", "2025-07-05", none⟩]).2
      = error_response ("Event with ID " ++ "id-1" ++ " not found") 404
  ∧ delete_event "id-2" [⟨"id-1", "Camp", "#fff", "2025-07-04", "2025-07-05", none⟩]
      = (error_response ("Event with ID " ++ "id-2" ++ " not found") 404,
         [⟨"id-1", "Camp", "#fff", "2025-07-04", "2025-07-05", none⟩]) := by
  refine ⟨?_, ?_⟩
  · exact (C5_delete_then_get_amended.1
      [⟨"id-1", "Camp", "#fff", "2025-07-04", "2025-07-05", none⟩] "id-1"
      ⟨"id-1", "Camp", "#fff", "2025-07-04", "2025-07-05", none⟩ rfl).2.1
  · exact C5_delete_then_get_amended.2
      [⟨"id-1", "Camp", "#fff", "2025-07-04", "2025-07-05", none⟩] "id-2" rfl

/-- Witness for C6: seeding an empty store yields four events; initialising
a one-event store keeps the count. -/
theorem C6_seed_witness :
    (init_db "a" "b" "c" "d" []).length = 4
  ∧ (init_db "a" "b" "c" "d"
        [⟨"x", "Solo", "#000", "2025-01-01", "2025-01-02", none⟩]).length
      = [(⟨"x", "Solo", "#000", "2025-01-01", "2025-01-02", none⟩ : Event)].length := by
  exact ⟨(C6_seed.1 "a" "b" "c" "d").1,
         C6_seed.2 "a" "b" "c" "d" _ (List.cons_ne_nil _ _)⟩

/-- Witness for C7 (amended): concrete storage failure texts surface in the
500 messages of the create, update, get-by-id and delete handlers, while a
failing list-all returns its fixed detail-free message. -/
theorem C7_error_detail_amended_witness :
    create_event "id-1" (some "database is locked")
        (some ⟨some (some "Camp"), some (some "#abc"), some (some "2025-07-04"),
              some (some "2025-07-06"), none, false⟩) []
      = (error_response ("Error creating event: " ++ "database is locked") 500, [])
  ∧ update_event_with_failure "id-1" (some "database is locked")
        (some ⟨some "New", none, none, none, none, false⟩) []
      = (error_response ("Error updating event " ++ "id-1" ++ ": " ++ "database is locked") 500,
         [])
  ∧ get_event_by_id_with_failure "id-1" (some "disk I/O error") []
      = error_response ("Error fetching event by ID " ++ "id-1" ++ ": " ++ "disk I/O error") 500
  ∧ delete_event_with_failure "id-1" (some "disk I/O error") []
      = (error_response ("Error deleting event " ++ "id-1" ++ ": " ++ "disk I/O error") 500, [])
  ∧ get_all_events_with_failure (some "disk I/O error") []
      = error_response "Error fetching all events" 500 := by
  refine ⟨?_, ?_, ?_, ?_, ?_⟩
  · exact C7_error_detail_amended.1 [] "id-1" "database is locked"
      ⟨some (some "Camp"), some (some "#abc"), some (some "2025-07-04"),
       some (some "2025-07-06"), none, false⟩ (by decide) (by decide) (by decide) (by decide)
  · exact C7_error_detail_amended.2.2.1 [] "id-1" "database is locked"
      ⟨some "New", none, none, none, none, false⟩ (by decide)
  · exact C7_error_detail_amended.2.1 [] "id-1" "disk I/O error"
  · exact C7_error_detail_amended.2.2.2.1 [] "id-1" "disk I/O error"
  · exact C7_error_detail_amended.2.2.2.2.2.1 [] "disk I/O error"

/-- Witness for C8 (amended): disabled gate → 200; matching credential →
200; non-bearer scheme under an enabled gate → 401. -/
theorem C8_login_route_amended_witness :
    login ⟨false, some "tok"⟩ none []
      = (success_response (RespData.msg "Bearer auth token is valid!") 200, [])
  ∧ login ⟨true, some "tok"⟩ (some "Bearer TOK") []
      = (success_response (RespData.msg "Bearer auth token is valid!") 200, [])
  ∧ (login ⟨true, some "tok"⟩ (some "Basic tok") []).1.status = 401 := by
  refine ⟨?_, ?_, ?_⟩
  · exact C8_login_route_amended.2.1 ⟨false, some "tok"⟩ none [] (by decide)
  · exact C8_login_route_amended.2.2.1 ⟨true, some "tok"⟩ (some "Bearer TOK") []
      "tok" "TOK" (by decide) rfl (by decide) (by decide)
  · exact C8_login_route_amended.2.2.2 ⟨true, some "tok"⟩ (some "Basic tok") []
      "tok" (by decide) rfl (Or.inl (by decide))

/-- Witness for C9: a non-empty unrecognised-only body against an absent id
gives 404; the same body against an existing id gives the no-fields 400; an
empty JSON object gives the body 400. -/
theorem C9_update_check_order_witness :
    update_event "id-9" (some ⟨none, none, none, none, none, true⟩) []
      = (error_response ("Event with ID " ++ "id-9" ++ " not found") 404, [])
  ∧ update_event "id-1" (some ⟨none, none, none, none, none, true⟩)
        [⟨"id-1", "Camp", "#fff", "2025-07-04", "2025-07-05", none⟩]
      = (error_response "No fields to update provided" 400,
         [⟨"id-1", "Camp", "#fff", "2025-07-04", "2025-07-05", none⟩])
  ∧ update_event "id-9" (some ⟨none, none, none, none, none, false⟩) []
      = (error_response "Invalid JSON body payload" 400, []) := by
  refine ⟨?_, ?_, ?_⟩
  · exact C9_update_check_order.2.2.1 [] "id-9"
      ⟨none, none, none, none, none, true⟩ (by decide) rfl
  · exact C9_update_check_order.2.2.2
      [⟨"id-1", "Camp", "#fff", "2025-07-04", "2025-07-05", none⟩] "id-1"
      ⟨none, none, none, none, none, true⟩
      ⟨"id-1", "Camp", "#fff", "2025-07-04", "2025-07-05", none⟩ (by decide) rfl rfl
  · exact C9_update_check_order.2.1 [] "id-9"
      ⟨none, none, none, none, none, false⟩ (by decide)

example : pySplit "Bearer tok" = ["Bearer", "tok"] := by decide

example : pySplit "  Bearer   tok " = ["Bearer", "tok"] := by decide

example : bearer_auth_check ⟨true, some "tok"⟩ (some "Bearer tok") = none := by decide

example : bearer_auth_check ⟨true, some "Secret"⟩ (some "Bearer Secret")
    = some (error_response "Invalid bearer token" 401) := by decide

example : bearer_auth_check ⟨true, some "tok"⟩ (some "bearer tok") = none := by decide

example : bearer_auth_check ⟨false, some "tok"⟩ none = none := by decide

example : presentedToken (some "Bearer tok") = some "tok" := by decide

end Server
